import Mathlib

/-!
Shallow embedding of the emission-calculation engine in
`server-python/carbon_calculator.py`.  Python floats are modelled as exact
rationals (ℚ), `Optional[float]` fields as `Option ℚ`, Python `raise
ValueError` as `Except.error`, and Python dictionaries (used for the
breakdown maps) as insertion-ordered association lists `List (String × ℚ)`.
Python's `x or default` idiom on an `Optional[float]` is modelled by `pyOr`:
it yields `default` when `x` is `None` *or* equals `0.0` (falsy), else the
value of `x`.
-/

namespace CarbonCalculator

/-- Global Warming Potential of CH4 (source line 6). -/
def GWP_CH4 : ℚ := 28

/-- Global Warming Potential of N2O (source line 7). -/
def GWP_N2O : ℚ := 265

def DENSITY_DIESEL : ℚ := 0.82

def DENSITY_PETROL : ℚ := 0.72

def CALORIFIC_VALUE_NATURAL_GAS_MJ_M3 : ℚ := 38.0

def CALORIFIC_VALUE_HEATING_OIL_MJ_KG : ℚ := 42.6

def CALORIFIC_VALUE_DIESEL_MJ_KG : ℚ := 43.1

def CALORIFIC_VALUE_PETROL_MJ_KG : ℚ := 44.3

def CALORIFIC_VALUE_COAL_MJ_KG : ℚ := 24.0

def EF_CO2_NATURAL_GAS : ℚ := 56.1

def EF_CO2_HEATING_OIL : ℚ := 74.1

def EF_CO2_DIESEL : ℚ := 74.1

def EF_CO2_PETROL : ℚ := 69.3

def EF_CO2_COAL : ℚ := 94.6

def EF_CH4_NATURAL_GAS : ℚ := 0.0001

def EF_CH4_HEATING_OIL : ℚ := 0.00003

def EF_CH4_DIESEL : ℚ := 0.00003

def EF_CH4_PETROL : ℚ := 0.00003

def EF_CH4_COAL : ℚ := 0.001

def EF_N2O_NATURAL_GAS : ℚ := 0.00002

def EF_N2O_HEATING_OIL : ℚ := 0.00006

def EF_N2O_DIESEL : ℚ := 0.00006

def EF_N2O_PETROL : ℚ := 0.00005

def EF_N2O_COAL : ℚ := 0.0001

def GWP_R407C : ℚ := 1624

def GWP_R32 : ℚ := 677

def GWP_R410A : ℚ := 1924

def FUEL_CONSUMPTION_PASSENGER_CAR_DIESEL_G_KM : ℚ := 60

/-- Python `x or default` on an `Optional[float]`: `None` and `0.0` are falsy. -/
def pyOr (x : Option ℚ) (d : ℚ) : ℚ :=
  match x with
  | none => d
  | some v => if v = 0 then d else v

/-- CO2-equivalent aggregator (source lines 64-66). -/
def calculate_co2e (mass_co2 mass_ch4 mass_n2o : ℚ) : ℚ :=
  mass_co2 + (mass_ch4 * GWP_CH4) + (mass_n2o * GWP_N2O)

/-- String-enum `FuelType` (source lines 69-75). -/
inductive FuelType where
  | NATURAL_GAS
  | HEATING_OIL
  | DIESEL
  | PETROL
  | COAL
  | ELECTRICITY
deriving DecidableEq

/-- Underlying string value of each `FuelType` member. -/
def FuelType.str : FuelType → String
  | .NATURAL_GAS => "Natural Gas"
  | .HEATING_OIL => "Heating Oil"
  | .DIESEL => "Diesel"
  | .PETROL => "Petrol"
  | .COAL => "Coal"
  | .ELECTRICITY => "Electricity"

/-- String-enum `Unit` (source lines 77-82). -/
inductive Unit where
  | M3
  | LITERS
  | TONNES
  | KWH
  | KM
deriving DecidableEq

/-- Underlying string value of each `Unit` member. -/
def Unit.str : Unit → String
  | .M3 => "m3"
  | .LITERS => "l"
  | .TONNES => "t"
  | .KWH => "kWh"
  | .KM => "km"

/-- `CombustionInput` (source lines 84-101). -/
structure CombustionInput where
  source : String
  fuel_type : FuelType
  unit : Unit
  amount : ℚ
  calorific_value_mj_kg : Option ℚ := none
  density_kg_l : Option ℚ := none
  distance_km : Option ℚ := none
  vehicle_type : Option String := none
  emission_factor_co2_kg_gj : Option ℚ := none
  emission_factor_ch4_kg_gj : Option ℚ := none
  emission_factor_n2o_kg_gj : Option ℚ := none
deriving DecidableEq

/-- String-enum `RefrigerantType` (source lines 103-107). -/
inductive RefrigerantType where
  | R407C
  | R32
  | R410A
  | CUSTOM
deriving DecidableEq

/-- `FugitiveEmissionInput` (source lines 109-113). -/
structure FugitiveEmissionInput where
  source : String
  refrigerant_type : RefrigerantType
  amount_kg : ℚ
  gwp_factor : Option ℚ := none
deriving DecidableEq

/-- `Scope1CalculationInput` (source lines 115-117). -/
structure Scope1CalculationInput where
  combustion_emissions : List CombustionInput := []
  fugitive_emissions : List FugitiveEmissionInput := []
deriving DecidableEq

/-- `EmissionResult` (source lines 119-124); `details` is a Python dict kept
as an insertion-ordered association list. -/
structure EmissionResult where
  source : String
  fuel_type : Option FuelType := none
  refrigerant_type : Option RefrigerantType := none
  co2e : ℚ
  details : List (String × ℚ) := []
deriving DecidableEq

/-- `Scope1Output` (source lines 126-128). -/
structure Scope1Output where
  total_co2e : ℚ
  breakdown : List EmissionResult := []
deriving DecidableEq

/-- Density/calorific-value resolution of the liters branch (source lines
143-155): diesel, petrol and heating oil fall back to table defaults via
Python `or`; any other fuel type keeps the raw overrides and fails when one
of them is absent. -/
def resolveLiquidDC (i : CombustionInput) : Option (ℚ × ℚ) :=
  match i.fuel_type with
  | .DIESEL =>
    some (pyOr i.density_kg_l DENSITY_DIESEL, pyOr i.calorific_value_mj_kg CALORIFIC_VALUE_DIESEL_MJ_KG)
  | .PETROL =>
    some (pyOr i.density_kg_l DENSITY_PETROL, pyOr i.calorific_value_mj_kg CALORIFIC_VALUE_PETROL_MJ_KG)
  | .HEATING_OIL =>
    some (pyOr i.density_kg_l DENSITY_DIESEL, pyOr i.calorific_value_mj_kg CALORIFIC_VALUE_HEATING_OIL_MJ_KG)
  | _ =>
    match i.density_kg_l, i.calorific_value_mj_kg with
    | some d, some c => some (d, c)
    | _, _ => none

/-- Error text of the final `else` branch (source line 193). -/
def unsupportedComboMsg (i : CombustionInput) : String :=
  "Unsupported unit '" ++ i.unit.str ++ "' or fuel type '" ++ i.fuel_type.str ++
    "' combination for combustion calculation, or missing distance/vehicle type for fleet method 2."

/-- Unit/fuel dispatch computing `energy_gj` (source lines 143-193). -/
def computeEnergyGJ (i : CombustionInput) : Except String ℚ :=
  if i.unit = Unit.LITERS then
    match resolveLiquidDC i with
    | some (d, c) => Except.ok (i.amount * d * c / 1000)
    | none =>
      Except.error ("Density or Calorific Value missing for liquid fuel type " ++ i.fuel_type.str)
  else if i.unit = Unit.M3 ∧ i.fuel_type = FuelType.NATURAL_GAS then
    Except.ok (i.amount * (pyOr i.calorific_value_mj_kg CALORIFIC_VALUE_NATURAL_GAS_MJ_M3 / 1000))
  else if i.unit = Unit.TONNES ∧ i.fuel_type = FuelType.COAL then
    Except.ok (i.amount * 1000 * (pyOr i.calorific_value_mj_kg CALORIFIC_VALUE_COAL_MJ_KG / 1000))
  else if i.unit = Unit.KM ∧ i.source = "Fleet" then
    match i.distance_km, i.vehicle_type with
    | some dist, some _v =>
      let estimated_fuel_kg := dist * (FUEL_CONSUMPTION_PASSENGER_CAR_DIESEL_G_KM / 1000)
      let d := pyOr i.density_kg_l DENSITY_DIESEL
      let c := pyOr i.calorific_value_mj_kg CALORIFIC_VALUE_DIESEL_MJ_KG
      let estimated_fuel_liters := estimated_fuel_kg / d
      Except.ok (estimated_fuel_liters * d * c / 1000)
    | _, _ =>
      Except.error "distance_km and vehicle_type are required for distance-based fleet calculation."
  else
    Except.error (unsupportedComboMsg i)

/-- Emission-factor resolution (source lines 196-222): known fuels fall back
to table defaults via Python `or`; `ELECTRICITY` matches no branch, so its
raw overrides must all be present. -/
def resolveEmissionFactors (i : CombustionInput) : Except String (ℚ × ℚ × ℚ) :=
  match i.fuel_type with
  | .NATURAL_GAS =>
    Except.ok (pyOr i.emission_factor_co2_kg_gj EF_CO2_NATURAL_GAS,
      pyOr i.emission_factor_ch4_kg_gj EF_CH4_NATURAL_GAS,
      pyOr i.emission_factor_n2o_kg_gj EF_N2O_NATURAL_GAS)
  | .HEATING_OIL =>
    Except.ok (pyOr i.emission_factor_co2_kg_gj EF_CO2_HEATING_OIL,
      pyOr i.emission_factor_ch4_kg_gj EF_CH4_HEATING_OIL,
      pyOr i.emission_factor_n2o_kg_gj EF_N2O_HEATING_OIL)
  | .DIESEL =>
    Except.ok (pyOr i.emission_factor_co2_kg_gj EF_CO2_DIESEL,
      pyOr i.emission_factor_ch4_kg_gj EF_CH4_DIESEL,
      pyOr i.emission_factor_n2o_kg_gj EF_N2O_DIESEL)
  | .PETROL =>
    Except.ok (pyOr i.emission_factor_co2_kg_gj EF_CO2_PETROL,
      pyOr i.emission_factor_ch4_kg_gj EF_CH4_PETROL,
      pyOr i.emission_factor_n2o_kg_gj EF_N2O_PETROL)
  | .COAL =>
    Except.ok (pyOr i.emission_factor_co2_kg_gj EF_CO2_COAL,
      pyOr i.emission_factor_ch4_kg_gj EF_CH4_COAL,
      pyOr i.emission_factor_n2o_kg_gj EF_N2O_COAL)
  | .ELECTRICITY =>
    match i.emission_factor_co2_kg_gj, i.emission_factor_ch4_kg_gj, i.emission_factor_n2o_kg_gj with
    | some a, some b, some c => Except.ok (a, b, c)
    | _, _, _ => Except.error ("Emission factors missing for fuel type " ++ i.fuel_type.str)

/-- `calculate_combustion_emissions` (source lines 132-241). -/
def calculate_combustion_emissions (input_data : CombustionInput) : Except String EmissionResult :=
  match computeEnergyGJ input_data with
  | Except.error e => Except.error e
  | Except.ok energy_gj =>
    match resolveEmissionFactors input_data with
    | Except.error e => Except.error e
    | Except.ok (ef_co2, ef_ch4, ef_n2o) =>
      let mass_co2 := energy_gj * ef_co2
      let mass_ch4 := energy_gj * ef_ch4
      let mass_n2o := energy_gj * ef_n2o
      let co2e := calculate_co2e mass_co2 mass_ch4 mass_n2o
      Except.ok { source := input_data.source
                  fuel_type := some input_data.fuel_type
                  co2e := co2e
                  details := [("energy_gj", energy_gj), ("mass_co2", mass_co2),
                    ("mass_ch4", mass_ch4), ("mass_n2o", mass_n2o)] }

/-- GWP resolution of `calculate_fugitive_emissions` (source lines 245-260). -/
def resolveGwp (input_data : FugitiveEmissionInput) : Except String ℚ :=
  match input_data.refrigerant_type with
  | .R407C => Except.ok (pyOr input_data.gwp_factor GWP_R407C)
  | .R32 => Except.ok (pyOr input_data.gwp_factor GWP_R32)
  | .R410A => Except.ok (pyOr input_data.gwp_factor GWP_R410A)
  | .CUSTOM =>
    match input_data.gwp_factor with
    | none => Except.error "GWP factor is required for custom refrigerant type."
    | some g => Except.ok g

/-- `calculate_fugitive_emissions` (source lines 243-272). -/
def calculate_fugitive_emissions (input_data : FugitiveEmissionInput) : Except String EmissionResult :=
  match resolveGwp input_data with
  | Except.error e => Except.error e
  | Except.ok gwp_factor =>
    Except.ok { source := input_data.source
                refrigerant_type := some input_data.refrigerant_type
                co2e := input_data.amount_kg * gwp_factor
                details := [("amount_kg", input_data.amount_kg), ("gwp_factor", gwp_factor)] }

/-- First loop of `calculate_scope1_emissions` (source lines 279-282): walks
the combustion records, adding each `co2e` to the running total and appending
each result to the breakdown; the first failing record aborts the call. -/
def combustionLoop : ℚ → List EmissionResult → List CombustionInput →
    Except String (ℚ × List EmissionResult)
  | total, breakdown, [] => Except.ok (total, breakdown)
  | total, breakdown, c :: rest =>
    match calculate_combustion_emissions c with
    | Except.error e => Except.error e
    | Except.ok r => combustionLoop (total + r.co2e) (breakdown ++ [r]) rest

/-- Second loop of `calculate_scope1_emissions` (source lines 284-287). -/
def fugitiveLoop : ℚ → List EmissionResult → List FugitiveEmissionInput →
    Except String (ℚ × List EmissionResult)
  | total, breakdown, [] => Except.ok (total, breakdown)
  | total, breakdown, f :: rest =>
    match calculate_fugitive_emissions f with
    | Except.error e => Except.error e
    | Except.ok r => fugitiveLoop (total + r.co2e) (breakdown ++ [r]) rest

/-- `calculate_scope1_emissions` (source lines 274-292). -/
def calculate_scope1_emissions (input_data : Scope1CalculationInput) : Except String Scope1Output :=
  match combustionLoop 0 [] input_data.combustion_emissions with
  | Except.error e => Except.error e
  | Except.ok (t1, b1) =>
    match fugitiveLoop t1 b1 input_data.fugitive_emissions with
    | Except.error e => Except.error e
    | Except.ok (t2, b2) => Except.ok { total_co2e := t2, breakdown := b2 }

/-- Element-wise translation of the combustion loop: the list of per-record
results in input order, failing on the first failing record. -/
def mapCombustion : List CombustionInput → Except String (List EmissionResult)
  | [] => Except.ok []
  | c :: rest =>
    match calculate_combustion_emissions c with
    | Except.error e => Except.error e
    | Except.ok r =>
      match mapCombustion rest with
      | Except.error e => Except.error e
      | Except.ok rs => Except.ok (r :: rs)

/-- Element-wise translation of the fugitive loop. -/
def mapFugitive : List FugitiveEmissionInput → Except String (List EmissionResult)
  | [] => Except.ok []
  | f :: rest =>
    match calculate_fugitive_emissions f with
    | Except.error e => Except.error e
    | Except.ok r =>
      match mapFugitive rest with
      | Except.error e => Except.error e
      | Except.ok rs => Except.ok (r :: rs)

def EF_ELECTRICITY_KG_CO2_PER_MWH : ℚ := 698

def EF_DISTRICT_HEATING_KG_CO2_PER_GJ : ℚ := 95.05

/-- `ElectricityInput` (source lines 299-300). -/
structure ElectricityInput where
  amount_kwh : ℚ
deriving DecidableEq

/-- `HeatingInput` (source lines 302-303). -/
structure HeatingInput where
  amount_gj : ℚ
deriving DecidableEq

/-- `Scope2CalculationInput` (source lines 305-307). -/
structure Scope2CalculationInput where
  electricity : Option ElectricityInput := none
  district_heating : Option HeatingInput := none
deriving DecidableEq

/-- `Scope2Output` (source lines 309-311); the breakdown dict is an
insertion-ordered association list. -/
structure Scope2Output where
  total_co2_emissions : ℚ
  breakdown : List (String × ℚ) := []
deriving DecidableEq

/-- `calculate_electricity_emissions` (source lines 314-318). -/
def calculate_electricity_emissions (input_data : ElectricityInput) : ℚ :=
  let mwh := input_data.amount_kwh / 1000
  mwh * EF_ELECTRICITY_KG_CO2_PER_MWH

/-- `calculate_district_heating_emissions` (source lines 320-323). -/
def calculate_district_heating_emissions (input_data : HeatingInput) : ℚ :=
  input_data.amount_gj * EF_DISTRICT_HEATING_KG_CO2_PER_GJ

/-- `calculate_scope2_emissions` (source lines 325-343). -/
def calculate_scope2_emissions (input_data : Scope2CalculationInput) : Scope2Output :=
  let s1 : ℚ × List (String × ℚ) :=
    match input_data.electricity with
    | none => (0, [])
    | some e =>
      let electricity_emissions := calculate_electricity_emissions e
      (0 + electricity_emissions, [("electricity", electricity_emissions)])
  let s2 : ℚ × List (String × ℚ) :=
    match input_data.district_heating with
    | none => s1
    | some h =>
      let heating_emissions := calculate_district_heating_emissions h
      (s1.1 + heating_emissions, s1.2 ++ [("district_heating", heating_emissions)])
  { total_co2_emissions := s2.1, breakdown := s2.2 }

def KM_TO_MILES : ℚ := 0.621371

def KG_TO_TONNES : ℚ := 0.001

def EF_WATER_SUPPLY_KG_CO2E_PER_M3 : ℚ := 0.149

def EF_PAPER_ECO_LABELED_KG_CO2E_PER_TONNE : ℚ := 739.4

def EF_PAPER_STANDARD_KG_CO2E_PER_TONNE : ℚ := 919.4

def EF_SOLID_WASTE_DISPOSAL_KG_CO2E_PER_TONNE : ℚ := 21.29

def EF_WASTEWATER_TREATMENT_KG_CO2E_PER_M3 : ℚ := 0.272

def AIR_SH_CO2_KG_PER_MILE : ℚ := 0.15

def AIR_SH_CH4_G_PER_MILE : ℚ := 0.001

def AIR_SH_N2O_G_PER_MILE : ℚ := 0.001

def AIR_MH_CO2_KG_PER_MILE : ℚ := 0.12

def AIR_MH_CH4_G_PER_MILE : ℚ := 0.0008

def AIR_MH_N2O_G_PER_MILE : ℚ := 0.0008

def AIR_LH_CO2_KG_PER_MILE : ℚ := 0.10

def AIR_LH_CH4_G_PER_MILE : ℚ := 0.0005

def AIR_LH_N2O_G_PER_MILE : ℚ := 0.0005

def EF_RAIL_CO2_KG_PER_KM : ℚ := 0.028

def EF_RAIL_CH4_KG_PER_MILE : ℚ := 0.0000092

def EF_RAIL_N2O_KG_PER_MILE : ℚ := 0.0000026

def EF_TAXI_KG_CO2E_PER_KM : ℚ := 0.2

def EF_BUS_KG_CO2E_PER_KM : ℚ := 0.1

/-- `WaterSupplyInput` (source lines 386-387). -/
structure WaterSupplyInput where
  volume_m3 : ℚ
deriving DecidableEq

/-- `PaperUsageInput` (source lines 389-391). -/
structure PaperUsageInput where
  mass_kg : ℚ
  eco_labeled : Bool := false
deriving DecidableEq

/-- `SolidWasteDisposalInput` (source lines 393-394). -/
structure SolidWasteDisposalInput where
  mass_kg : ℚ
deriving DecidableEq

/-- `WastewaterTreatmentInput` (source lines 396-397). -/
structure WastewaterTreatmentInput where
  volume_m3 : ℚ
deriving DecidableEq

/-- `AirTravelInput` (source lines 399-401). -/
structure AirTravelInput where
  distance_km : ℚ
  flight_class : Option String := some "economy"
deriving DecidableEq

/-- `RailTravelInput` (source lines 403-404). -/
structure RailTravelInput where
  distance_km : ℚ
deriving DecidableEq

/-- `TaxiBusTravelInput` (source lines 406-408). -/
structure TaxiBusTravelInput where
  distance_km : ℚ
  vehicle_type : String
deriving DecidableEq

/-- Tagged union of `Union[WaterSupplyInput, PaperUsageInput]` (source line 411). -/
inductive PurchasedGoodsItem where
  | water (i : WaterSupplyInput)
  | paper (i : PaperUsageInput)
deriving DecidableEq

/-- Tagged union of `Union[SolidWasteDisposalInput, WastewaterTreatmentInput]` (source line 412). -/
inductive WasteItem where
  | solid (i : SolidWasteDisposalInput)
  | wastewater (i : WastewaterTreatmentInput)
deriving DecidableEq

/-- Tagged union of `Union[AirTravelInput, RailTravelInput, TaxiBusTravelInput]` (source line 413). -/
inductive BusinessTravelItem where
  | air (i : AirTravelInput)
  | rail (i : RailTravelInput)
  | taxiBus (i : TaxiBusTravelInput)
deriving DecidableEq

/-- `Scope3CalculationInput` (source lines 410-413). -/
structure Scope3CalculationInput where
  purchased_goods_services : List PurchasedGoodsItem := []
  waste_generated : List WasteItem := []
  business_travel : List BusinessTravelItem := []
deriving DecidableEq

/-- The three fixed top-level keys of the Scope 3 breakdown dict (source
lines 499-503), each an insertion-ordered association list. -/
structure Scope3Breakdown where
  purchased_goods_services : List (String × ℚ) := []
  waste_generated : List (String × ℚ) := []
  business_travel : List (String × ℚ) := []
deriving DecidableEq

/-- `Scope3Output` (source lines 415-417). -/
structure Scope3Output where
  total_co2e_emissions : ℚ
  breakdown : Scope3Breakdown
deriving DecidableEq

/-- Python `d.get(k, 0.0)` on an association list. -/
def dGet : List (String × ℚ) → String → ℚ
  | [], _ => 0
  | p :: rest, k => if p.1 = k then p.2 else dGet rest k

/-- Python `d[k] = v`: replace the first binding of `k` in place, else append. -/
def dSet : List (String × ℚ) → String → ℚ → List (String × ℚ)
  | [], k, v => [(k, v)]
  | p :: rest, k, v => if p.1 = k then (k, v) :: rest else p :: dSet rest k v

/-- Python `d[k] = d.get(k, 0.0) + x`, the accumulation idiom of the Scope 3 loops. -/
def dAdd (d : List (String × ℚ)) (k : String) (x : ℚ) : List (String × ℚ) :=
  dSet d k (dGet d k + x)

/-- Sum of all values of an association list. -/
def dSum (d : List (String × ℚ)) : ℚ :=
  (d.map Prod.snd).sum

/-- `km_to_miles` (source lines 421-422). -/
def km_to_miles (km : ℚ) : ℚ :=
  km * KM_TO_MILES

/-- `get_flight_haul_class` (source lines 424-430). -/
def get_flight_haul_class (miles : ℚ) : String :=
  if miles < 300 then "Short Haul"
  else if 300 ≤ miles ∧ miles < 2300 then "Medium Haul"
  else "Long Haul"

/-- `calculate_water_supply_emissions` (source lines 432-433). -/
def calculate_water_supply_emissions (input_data : WaterSupplyInput) : ℚ :=
  input_data.volume_m3 * EF_WATER_SUPPLY_KG_CO2E_PER_M3

/-- `calculate_paper_usage_emissions` (source lines 435-440). -/
def calculate_paper_usage_emissions (input_data : PaperUsageInput) : ℚ :=
  let mass_tonnes := input_data.mass_kg * KG_TO_TONNES
  if input_data.eco_labeled then mass_tonnes * EF_PAPER_ECO_LABELED_KG_CO2E_PER_TONNE
  else mass_tonnes * EF_PAPER_STANDARD_KG_CO2E_PER_TONNE

/-- `calculate_solid_waste_emissions` (source lines 442-444). -/
def calculate_solid_waste_emissions (input_data : SolidWasteDisposalInput) : ℚ :=
  let mass_tonnes := input_data.mass_kg * KG_TO_TONNES
  mass_tonnes * EF_SOLID_WASTE_DISPOSAL_KG_CO2E_PER_TONNE

/-- `calculate_wastewater_emissions` (source lines 446-447). -/
def calculate_wastewater_emissions (input_data : WastewaterTreatmentInput) : ℚ :=
  input_data.volume_m3 * EF_WASTEWATER_TREATMENT_KG_CO2E_PER_M3

/-- `calculate_air_travel_emissions` (source lines 449-474). -/
def calculate_air_travel_emissions (input_data : AirTravelInput) : ℚ :=
  let distance_miles := km_to_miles input_data.distance_km
  let haul_class := get_flight_haul_class distance_miles
  let factors : ℚ × ℚ × ℚ :=
    if haul_class = "Short Haul" then
      (AIR_SH_CO2_KG_PER_MILE, AIR_SH_CH4_G_PER_MILE, AIR_SH_N2O_G_PER_MILE)
    else if haul_class = "Medium Haul" then
      (AIR_MH_CO2_KG_PER_MILE, AIR_MH_CH4_G_PER_MILE, AIR_MH_N2O_G_PER_MILE)
    else
      (AIR_LH_CO2_KG_PER_MILE, AIR_LH_CH4_G_PER_MILE, AIR_LH_N2O_G_PER_MILE)
  let mass_co2 := distance_miles * factors.1
  let mass_ch4 := (distance_miles * factors.2.1) / 1000
  let mass_n2o := (distance_miles * factors.2.2) / 1000
  calculate_co2e mass_co2 mass_ch4 mass_n2o

/-- `calculate_rail_travel_emissions` (source lines 476-487). -/
def calculate_rail_travel_emissions (input_data : RailTravelInput) : ℚ :=
  let co2_emissions_kg := input_data.distance_km * EF_RAIL_CO2_KG_PER_KM
  let distance_miles := km_to_miles input_data.distance_km
  let mass_ch4 := distance_miles * EF_RAIL_CH4_KG_PER_MILE
  let mass_n2o := distance_miles * EF_RAIL_N2O_KG_PER_MILE
  let co2e_ch4_n2o := (mass_ch4 * GWP_CH4) + (mass_n2o * GWP_N2O)
  co2_emissions_kg + co2e_ch4_n2o

/-- `calculate_taxi_bus_travel_emissions` (source lines 489-495). -/
def calculate_taxi_bus_travel_emissions (input_data : TaxiBusTravelInput) : Except String ℚ :=
  if input_data.vehicle_type.toLower = "taxi" then
    Except.ok (input_data.distance_km * EF_TAXI_KG_CO2E_PER_KM)
  else if input_data.vehicle_type.toLower = "bus" then
    Except.ok (input_data.distance_km * EF_BUS_KG_CO2E_PER_KM)
  else
    Except.error ("Unsupported vehicle type for taxi/bus: " ++ input_data.vehicle_type)

/-- Category 1 loop of `calculate_scope3_emissions` (source lines 506-514). -/
def purchasedGoodsLoop : ℚ → List (String × ℚ) → List PurchasedGoodsItem → ℚ × List (String × ℚ)
  | total, d, [] => (total, d)
  | total, d, PurchasedGoodsItem.water i :: rest =>
    let emissions := calculate_water_supply_emissions i
    purchasedGoodsLoop (total + emissions) (dAdd d "water_supply" emissions) rest
  | total, d, PurchasedGoodsItem.paper i :: rest =>
    let emissions := calculate_paper_usage_emissions i
    purchasedGoodsLoop (total + emissions) (dAdd d "paper_usage" emissions) rest

/-- Category 5 loop of `calculate_scope3_emissions` (source lines 517-525). -/
def wasteLoop : ℚ → List (String × ℚ) → List WasteItem → ℚ × List (String × ℚ)
  | total, d, [] => (total, d)
  | total, d, WasteItem.solid i :: rest =>
    let emissions := calculate_solid_waste_emissions i
    wasteLoop (total + emissions) (dAdd d "solid_waste_disposal" emissions) rest
  | total, d, WasteItem.wastewater i :: rest =>
    let emissions := calculate_wastewater_emissions i
    wasteLoop (total + emissions) (dAdd d "wastewater_treatment" emissions) rest

/-- Category 6 loop of `calculate_scope3_emissions` (source lines 528-540);
a taxi/bus record with an unsupported vehicle type aborts the call. -/
def businessTravelLoop : ℚ → List (String × ℚ) → List BusinessTravelItem →
    Except String (ℚ × List (String × ℚ))
  | total, d, [] => Except.ok (total, d)
  | total, d, BusinessTravelItem.air i :: rest =>
    let emissions := calculate_air_travel_emissions i
    businessTravelLoop (total + emissions) (dAdd d "air_travel" emissions) rest
  | total, d, BusinessTravelItem.rail i :: rest =>
    let emissions := calculate_rail_travel_emissions i
    businessTravelLoop (total + emissions) (dAdd d "rail_travel" emissions) rest
  | total, d, BusinessTravelItem.taxiBus i :: rest =>
    match calculate_taxi_bus_travel_emissions i with
    | Except.error e => Except.error e
    | Except.ok emissions =>
      businessTravelLoop (total + emissions) (dAdd d "taxi_bus_travel" emissions) rest

/-- `calculate_scope3_emissions` (source lines 497-545). -/
def calculate_scope3_emissions (input_data : Scope3CalculationInput) : Except String Scope3Output :=
  match purchasedGoodsLoop 0 [] input_data.purchased_goods_services with
  | (t1, d1) =>
    match wasteLoop t1 [] input_data.waste_generated with
    | (t2, d2) =>
      match businessTravelLoop t2 [] input_data.business_travel with
      | Except.error e => Except.error e
      | Except.ok (t3, d3) =>
        Except.ok { total_co2e_emissions := t3
                    breakdown := { purchased_goods_services := d1
                                   waste_generated := d2
                                   business_travel := d3 } }

/-- Default GWP per refrigerant type (source lines 47-49, 247-252); the
`CUSTOM` case never applies (a custom record must carry an override). -/
def defaultRefrigerantGWP : RefrigerantType → ℚ
  | .R407C => GWP_R407C
  | .R32 => GWP_R32
  | .R410A => GWP_R410A
  | .CUSTOM => 0

/-- Example record: 100 liters of diesel with no overrides. -/
def dieselLiters100 : CombustionInput :=
  { source := "Heating", fuel_type := FuelType.DIESEL, unit := Unit.LITERS, amount := 100 }

/-- Example record: coal measured in liters, with density and calorific-value
overrides supplied. -/
def coalLitersOverrides : CombustionInput :=
  { source := "Heating", fuel_type := FuelType.COAL, unit := Unit.LITERS, amount := 1,
    calorific_value_mj_kg := some 1, density_kg_l := some 1 }

/-- Example record: diesel measured in kWh, an unsupported combination. -/
def kwhDiesel : CombustionInput :=
  { source := "Heating", fuel_type := FuelType.DIESEL, unit := Unit.KWH, amount := 1 }

/-- Example record: a custom refrigerant with GWP override 1500 and 2 kg refilled. -/
def customRefr1500 : FugitiveEmissionInput :=
  { source := "Refrigerants", refrigerant_type := RefrigerantType.CUSTOM, amount_kg := 2,
    gwp_factor := some 1500 }

/-- Example record: a custom refrigerant with no GWP override. -/
def customRefrNoGwp : FugitiveEmissionInput :=
  { source := "Refrigerants", refrigerant_type := RefrigerantType.CUSTOM, amount_kg := 2 }

/-- Example record: distance-based fleet calculation over 100 km. -/
def fleetKm100 : CombustionInput :=
  { source := "Fleet", fuel_type := FuelType.DIESEL, unit := Unit.KM, amount := 1,
    distance_km := some 100, vehicle_type := some "Passenger Car Diesel" }

/-- Example Scope 1 input: one R32 fugitive record of 1 kg. -/
def scope1Example : Scope1CalculationInput :=
  { fugitive_emissions := [{ source := "Refrigerants",
                             refrigerant_type := RefrigerantType.R32, amount_kg := 1 }] }

/-- The output `calculate_scope1_emissions` produces on `scope1Example`. -/
def scope1ExampleOut : Scope1Output :=
  { total_co2e := 677
    breakdown := [{ source := "Refrigerants", refrigerant_type := some RefrigerantType.R32,
                    co2e := 677, details := [("amount_kg", 1), ("gwp_factor", 677)] }] }

/-- Example Scope 3 input: one water-supply record of 2 cubic meters. -/
def scope3Example : Scope3CalculationInput :=
  { purchased_goods_services := [PurchasedGoodsItem.water { volume_m3 := 2 }] }

/-- The output `calculate_scope3_emissions` produces on `scope3Example`. -/
def scope3ExampleOut : Scope3Output :=
  { total_co2e_emissions := 0.298
    breakdown := { purchased_goods_services := [("water_supply", 0.298)] } }

/-! ## Helper lemmas -/

theorem dSum_dAdd (d : List (String × ℚ)) (k : String) (x : ℚ) :
    dSum (dAdd d k x) = dSum d + x := by
  induction d with
  | nil => simp [dAdd, dSet, dGet, dSum]
  | cons p rest ih =>
    by_cases h : p.1 = k
    · simp [dAdd, dSet, dGet, h, dSum]
      ring
    · have hd : dAdd (p :: rest) k x = p :: dAdd rest k x := by
        simp [dAdd, dSet, dGet, h]
      rw [hd]
      simp only [dSum, List.map_cons, List.sum_cons] at ih ⊢
      rw [ih]
      ring

/-! ## Claim theorems -/

/-- C1: the CO2e aggregator returns `mass_co2 + mass_ch4 * 28 + mass_n2o * 265`,
and for every combustion record whose unit conversion yields a positive energy E
and whose emission factors resolve to a triple (efc, efh, efn), the combustion
path succeeds and its aggregated CO2e equals `E*efc + E*efh*28 + E*efn*265`. -/
theorem C1_aggregator_and_combustion_co2e :
    (∀ mass_co2 mass_ch4 mass_n2o : ℚ,
      calculate_co2e mass_co2 mass_ch4 mass_n2o = mass_co2 + mass_ch4 * 28 + mass_n2o * 265) ∧
    (∀ (i : CombustionInput) (E ef_co2 ef_ch4 ef_n2o : ℚ), 0 < E →
      computeEnergyGJ i = Except.ok E →
      resolveEmissionFactors i = Except.ok (ef_co2, ef_ch4, ef_n2o) →
      ∃ r, calculate_combustion_emissions i = Except.ok r ∧
        r.co2e = E * ef_co2 + E * ef_ch4 * 28 + E * ef_n2o * 265) := by
  constructor
  · intro a b c
    simp [calculate_co2e, GWP_CH4, GWP_N2O]
  · intro i E efc efh efn _hE h1 h2
    refine ⟨{ source := i.source, fuel_type := some i.fuel_type,
              co2e := calculate_co2e (E * efc) (E * efh) (E * efn),
              details := [("energy_gj", E), ("mass_co2", E * efc), ("mass_ch4", E * efh),
                ("mass_n2o", E * efn)] }, ?_, ?_⟩
    · simp [calculate_combustion_emissions, h1, h2]
    · simp [calculate_co2e, GWP_CH4, GWP_N2O]

/-- C1 witness: the diesel-liters example yields energy 3.5342 GJ, emission
factors (74.1, 0.00003, 0.00006), and CO2e `3.5342*74.1 + 3.5342*0.00003*28 +
3.5342*0.00006*265`. -/
theorem C1_aggregator_and_combustion_co2e_witness :
    ∃ r, calculate_combustion_emissions dieselLiters100 = Except.ok r ∧
      r.co2e = (3.5342 : ℚ) * 74.1 + 3.5342 * 0.00003 * 28 + 3.5342 * 0.00006 * 265 :=
  C1_aggregator_and_combustion_co2e.2 dieselLiters100 3.5342 74.1 0.00003 0.00006
    (by norm_num)
    (by norm_num [computeEnergyGJ, dieselLiters100, resolveLiquidDC, pyOr, DENSITY_DIESEL,
      CALORIFIC_VALUE_DIESEL_MJ_KG])
    (by norm_num [resolveEmissionFactors, dieselLiters100, pyOr, EF_CO2_DIESEL, EF_CH4_DIESEL,
      EF_N2O_DIESEL])

/-- C3: km are converted to miles by `miles = km * 0.621371`; strictly below
300 miles is Short Haul, at least 300 and strictly below 2300 is Medium Haul,
at least 2300 is Long Haul; exactly 300 miles is Medium and exactly 2300 is Long. -/
theorem C3_haul_classification :
    (∀ i : AirTravelInput, km_to_miles i.distance_km = i.distance_km * 0.621371) ∧
    (∀ miles : ℚ, miles < 300 → get_flight_haul_class miles = "Short Haul") ∧
    (∀ miles : ℚ, 300 ≤ miles → miles < 2300 → get_flight_haul_class miles = "Medium Haul") ∧
    (∀ miles : ℚ, 2300 ≤ miles → get_flight_haul_class miles = "Long Haul") ∧
    get_flight_haul_class 300 = "Medium Haul" ∧
    get_flight_haul_class 2300 = "Long Haul" := by
  refine ⟨?_, ?_, ?_, ?_, ?_, ?_⟩
  · intro i
    simp [km_to_miles, KM_TO_MILES]
  · intro m h
    simp [get_flight_haul_class, h]
  · intro m h1 h2
    rw [get_flight_haul_class, if_neg (not_lt.mpr h1), if_pos ⟨h1, h2⟩]
  · intro m h
    rw [get_flight_haul_class, if_neg (not_lt.mpr (by linarith)),
      if_neg (fun hc => absurd hc.2 (not_lt.mpr h))]
  · norm_num [get_flight_haul_class]
  · norm_num [get_flight_haul_class]

/-- C3 witness: 1000 km converts to 621.371 miles, which classifies as Medium Haul. -/
theorem C3_haul_classification_witness :
    km_to_miles (1000 : ℚ) = 621.371 ∧ get_flight_haul_class (km_to_miles 1000) = "Medium Haul" :=
  ⟨by norm_num [km_to_miles, KM_TO_MILES],
   C3_haul_classification.2.2.1 (km_to_miles 1000)
     (by norm_num [km_to_miles, KM_TO_MILES]) (by norm_num [km_to_miles, KM_TO_MILES])⟩

/-- C4: for every combustion record in liters whose density and calorific value
resolve to (d, c), the energy is `amount * d * c / 1000`; the diesel example
with amount 100 resolves to (0.82, 43.1) and yields energy 3.5342 GJ, which is
also the `energy_gj` entry of the returned details. -/
theorem C4_liters_energy :
    (∀ (i : CombustionInput) (d c : ℚ), i.unit = Unit.LITERS →
      resolveLiquidDC i = some (d, c) →
      computeEnergyGJ i = Except.ok (i.amount * d * c / 1000)) ∧
    resolveLiquidDC dieselLiters100 = some (0.82, 43.1) ∧
    computeEnergyGJ dieselLiters100 = Except.ok 3.5342 ∧
    (∃ r, calculate_combustion_emissions dieselLiters100 = Except.ok r ∧
      dGet r.details "energy_gj" = 3.5342) ∧
    (100 : ℚ) * 0.82 * 43.1 / 1000 = 3.5342 := by
  refine ⟨?_, ?_, ?_, ?_, by norm_num⟩
  · intro i d c hu hr
    simp [computeEnergyGJ, hu, hr]
  · norm_num [resolveLiquidDC, dieselLiters100, pyOr, DENSITY_DIESEL, CALORIFIC_VALUE_DIESEL_MJ_KG]
  · norm_num [computeEnergyGJ, dieselLiters100, resolveLiquidDC, pyOr, DENSITY_DIESEL,
      CALORIFIC_VALUE_DIESEL_MJ_KG]
  · have h : calculate_combustion_emissions dieselLiters100 = Except.ok
        { source := "Heating", fuel_type := some FuelType.DIESEL,
          co2e := calculate_co2e (3.5342 * 74.1) (3.5342 * 0.00003) (3.5342 * 0.00006),
          details := [("energy_gj", 3.5342), ("mass_co2", 3.5342 * 74.1),
            ("mass_ch4", 3.5342 * 0.00003), ("mass_n2o", 3.5342 * 0.00006)] } := by
      norm_num [calculate_combustion_emissions, computeEnergyGJ, resolveEmissionFactors,
        dieselLiters100, resolveLiquidDC, pyOr, DENSITY_DIESEL, CALORIFIC_VALUE_DIESEL_MJ_KG,
        EF_CO2_DIESEL, EF_CH4_DIESEL, EF_N2O_DIESEL, calculate_co2e, GWP_CH4, GWP_N2O]
    exact ⟨_, h, by norm_num [dGet]⟩

/-- C4 witness: the general liters formula applied to the diesel example. -/
theorem C4_liters_energy_witness :
    computeEnergyGJ dieselLiters100 = Except.ok (dieselLiters100.amount * 0.82 * 43.1 / 1000) :=
  C4_liters_energy.1 dieselLiters100 0.82 43.1 rfl
    (by norm_num [resolveLiquidDC, dieselLiters100, pyOr, DENSITY_DIESEL,
      CALORIFIC_VALUE_DIESEL_MJ_KG])

/-- C9 counterexample: called with the negative mass -1 for CO2, the aggregator
does not fail; it returns the value -1. -/
theorem C9_negative_not_rejected :
    calculate_co2e (-1) 0 0 = -1 ∧ ((-1 : ℚ) < 0) := by
  constructor
  · norm_num [calculate_co2e, GWP_CH4, GWP_N2O]
  · norm_num

/-- C9 (amended): the aggregator performs no input validation at all; on every
input triple, negative values included, it totally returns the GWP-weighted sum
and has no failure mode. -/
theorem C9_aggregator_total :
    ∀ mass_co2 mass_ch4 mass_n2o : ℚ,
      calculate_co2e mass_co2 mass_ch4 mass_n2o = mass_co2 + mass_ch4 * 28 + mass_n2o * 265 := by
  intro a b c
  simp [calculate_co2e, GWP_CH4, GWP_N2O]

/-- C5: the fugitive GWP factor is the record's positive override when present,
else the per-refrigerant default; a Custom record with no override fails with
the invalid-input error; on success `co2e = amount_kg * GWP`; the Custom
example with override 1500 and 2 kg yields 3000. -/
theorem C5_fugitive_gwp_resolution :
    (∀ (i : FugitiveEmissionInput) (g : ℚ), i.gwp_factor = some g → 0 < g →
      calculate_fugitive_emissions i = Except.ok
        { source := i.source, refrigerant_type := some i.refrigerant_type,
          co2e := i.amount_kg * g,
          details := [("amount_kg", i.amount_kg), ("gwp_factor", g)] }) ∧
    (∀ i : FugitiveEmissionInput, i.gwp_factor = none →
      i.refrigerant_type ≠ RefrigerantType.CUSTOM →
      calculate_fugitive_emissions i = Except.ok
        { source := i.source, refrigerant_type := some i.refrigerant_type,
          co2e := i.amount_kg * defaultRefrigerantGWP i.refrigerant_type,
          details := [("amount_kg", i.amount_kg),
            ("gwp_factor", defaultRefrigerantGWP i.refrigerant_type)] }) ∧
    (∀ i : FugitiveEmissionInput, i.refrigerant_type = RefrigerantType.CUSTOM →
      i.gwp_factor = none →
      calculate_fugitive_emissions i =
        Except.error "GWP factor is required for custom refrigerant type.") ∧
    calculate_fugitive_emissions customRefr1500 = Except.ok
      { source := "Refrigerants", refrigerant_type := some RefrigerantType.CUSTOM,
        co2e := 3000, details := [("amount_kg", 2), ("gwp_factor", 1500)] } ∧
    calculate_fugitive_emissions customRefrNoGwp =
      Except.error "GWP factor is required for custom refrigerant type." := by
  refine ⟨?_, ?_, ?_, ?_, ?_⟩
  · intro i g hg hpos
    cases h : i.refrigerant_type <;>
      simp [calculate_fugitive_emissions, resolveGwp, h, hg, pyOr, hpos.ne']
  · intro i hg hc
    cases h : i.refrigerant_type <;>
      simp_all [calculate_fugitive_emissions, resolveGwp, pyOr, defaultRefrigerantGWP]
  · intro i hc hg
    simp [calculate_fugitive_emissions, resolveGwp, hc, hg]
  · norm_num [calculate_fugitive_emissions, resolveGwp, customRefr1500, pyOr]
  · norm_num [calculate_fugitive_emissions, resolveGwp, customRefrNoGwp]

/-- C5 witness: the override branch applied to the Custom example with GWP 1500. -/
theorem C5_fugitive_gwp_resolution_witness :
    calculate_fugitive_emissions customRefr1500 = Except.ok
      { source := customRefr1500.source,
        refrigerant_type := some customRefr1500.refrigerant_type,
        co2e := customRefr1500.amount_kg * 1500,
        details := [("amount_kg", customRefr1500.amount_kg), ("gwp_factor", 1500)] } :=
  C5_fugitive_gwp_resolution.1 customRefr1500 1500 rfl (by norm_num)

/-- C7: electricity contributes `amount_kwh/1000 * 698` and district heating
`amount_gj * 95.05`; the Scope 2 total is the sum of whichever contributions
are present, an absent input contributes zero and produces no breakdown entry,
and 1000 kWh yields exactly 698. -/
theorem C7_scope2_contributions :
    (∀ e : ElectricityInput, calculate_electricity_emissions e = e.amount_kwh / 1000 * 698) ∧
    (∀ h : HeatingInput, calculate_district_heating_emissions h = h.amount_gj * 95.05) ∧
    (∀ inp : Scope2CalculationInput,
      (calculate_scope2_emissions inp).total_co2_emissions =
        (inp.electricity.map calculate_electricity_emissions).getD 0 +
        (inp.district_heating.map calculate_district_heating_emissions).getD 0) ∧
    (∀ inp : Scope2CalculationInput,
      (calculate_scope2_emissions inp).breakdown =
        (match inp.electricity with
          | none => []
          | some e => [("electricity", calculate_electricity_emissions e)]) ++
        (match inp.district_heating with
          | none => []
          | some h => [("district_heating", calculate_district_heating_emissions h)])) ∧
    calculate_electricity_emissions { amount_kwh := 1000 } = 698 := by
  refine ⟨?_, ?_, ?_, ?_, ?_⟩
  · intro e
    simp [calculate_electricity_emissions, EF_ELECTRICITY_KG_CO2_PER_MWH]
  · intro h
    simp [calculate_district_heating_emissions, EF_DISTRICT_HEATING_KG_CO2_PER_GJ]
  · rintro ⟨oe, oh⟩
    cases oe <;> cases oh <;> simp [calculate_scope2_emissions]
  · rintro ⟨oe, oh⟩
    cases oe <;> cases oh <;> simp [calculate_scope2_emissions]
  · norm_num [calculate_electricity_emissions, EF_ELECTRICITY_KG_CO2_PER_MWH]

/-- C8: a distance-based fleet record computes its energy by estimating the
fuel mass as `distance_km * (60/1000)` kg, converting that mass to liters via
the resolved density, and applying the liters-to-GJ formula
`liters * density * calorific / 1000`. -/
theorem C8_fleet_distance_energy :
    ∀ (i : CombustionInput) (dist : ℚ) (v : String),
      i.unit = Unit.KM → i.source = "Fleet" →
      i.distance_km = some dist → i.vehicle_type = some v →
      computeEnergyGJ i = Except.ok
        (dist * (FUEL_CONSUMPTION_PASSENGER_CAR_DIESEL_G_KM / 1000) /
            pyOr i.density_kg_l DENSITY_DIESEL *
          pyOr i.density_kg_l DENSITY_DIESEL *
          pyOr i.calorific_value_mj_kg CALORIFIC_VALUE_DIESEL_MJ_KG / 1000) := by
  intro i dist v hu hs hd hv
  simp [computeEnergyGJ, hu, hs, hd, hv]

/-- C8 witness: the fleet formula applied to the 100 km example record. -/
theorem C8_fleet_distance_energy_witness :
    computeEnergyGJ fleetKm100 = Except.ok
      ((100 : ℚ) * (FUEL_CONSUMPTION_PASSENGER_CAR_DIESEL_G_KM / 1000) /
          pyOr fleetKm100.density_kg_l DENSITY_DIESEL *
        pyOr fleetKm100.density_kg_l DENSITY_DIESEL *
        pyOr fleetKm100.calorific_value_mj_kg CALORIFIC_VALUE_DIESEL_MJ_KG / 1000) :=
  C8_fleet_distance_energy fleetKm100 100 "Passenger Car Diesel" rfl rfl rfl rfl

/-- C10: two distance-based fleet records that differ only in their `amount`
field produce identical results; `amount` has no influence on that path. -/
theorem C10_fleet_ignores_amount :
    ∀ (i : CombustionInput) (a1 a2 : ℚ),
      i.unit = Unit.KM → i.source = "Fleet" →
      i.distance_km.isSome = true → i.vehicle_type.isSome = true →
      0 < a1 → 0 < a2 →
      calculate_combustion_emissions { i with amount := a1 } =
        calculate_combustion_emissions { i with amount := a2 } := by
  intro i a1 a2 hu hs hd hv _ _
  obtain ⟨src, ft, u, amt, cv, den, dk, vt, e1, e2, e3⟩ := i
  simp only at hu hs hd hv
  subst hu
  subst hs
  obtain ⟨dist, hdist⟩ := Option.isSome_iff_exists.mp hd
  obtain ⟨v, hvv⟩ := Option.isSome_iff_exists.mp hv
  subst hdist
  subst hvv
  have h1 : ∀ a : ℚ, computeEnergyGJ
      { source := "Fleet", fuel_type := ft, unit := Unit.KM, amount := a,
        calorific_value_mj_kg := cv, density_kg_l := den, distance_km := some dist,
        vehicle_type := some v, emission_factor_co2_kg_gj := e1,
        emission_factor_ch4_kg_gj := e2, emission_factor_n2o_kg_gj := e3 } =
      Except.ok (dist * (FUEL_CONSUMPTION_PASSENGER_CAR_DIESEL_G_KM / 1000) /
          pyOr den DENSITY_DIESEL * pyOr den DENSITY_DIESEL *
          pyOr cv CALORIFIC_VALUE_DIESEL_MJ_KG / 1000) := by
    intro a
    simp [computeEnergyGJ]
  have h2 : ∀ a a' : ℚ, resolveEmissionFactors
      { source := "Fleet", fuel_type := ft, unit := Unit.KM, amount := a,
        calorific_value_mj_kg := cv, density_kg_l := den, distance_km := some dist,
        vehicle_type := some v, emission_factor_co2_kg_gj := e1,
        emission_factor_ch4_kg_gj := e2, emission_factor_n2o_kg_gj := e3 } =
      resolveEmissionFactors
      { source := "Fleet", fuel_type := ft, unit := Unit.KM, amount := a',
        calorific_value_mj_kg := cv, density_kg_l := den, distance_km := some dist,
        vehicle_type := some v, emission_factor_co2_kg_gj := e1,
        emission_factor_ch4_kg_gj := e2, emission_factor_n2o_kg_gj := e3 } := by
    intro a a'
    cases ft <;> simp [resolveEmissionFactors]
  simp only [calculate_combustion_emissions, h1, h2 a1 a2]

/-- C10 witness: the 100 km fleet example with amounts 1 and 2. -/
theorem C10_fleet_ignores_amount_witness :
    calculate_combustion_emissions { fleetKm100 with amount := 1 } =
      calculate_combustion_emissions { fleetKm100 with amount := 2 } :=
  C10_fleet_ignores_amount fleetKm100 1 2 rfl rfl rfl rfl (by norm_num) (by norm_num)

theorem combustionLoop_ok (l : List CombustionInput) :
    ∀ (t : ℚ) (b : List EmissionResult) (t' : ℚ) (b' : List EmissionResult),
      combustionLoop t b l = Except.ok (t', b') →
      ∃ rs, mapCombustion l = Except.ok rs ∧ b' = b ++ rs ∧
        t' = t + (rs.map EmissionResult.co2e).sum := by
  induction l with
  | nil =>
    intro t b t' b' h
    simp only [combustionLoop, Except.ok.injEq, Prod.mk.injEq] at h
    obtain ⟨rfl, rfl⟩ := h
    exact ⟨[], by simp [mapCombustion], by simp, by simp⟩
  | cons c rest ih =>
    intro t b t' b' h
    simp only [combustionLoop] at h
    cases hc : calculate_combustion_emissions c with
    | error e =>
      rw [hc] at h
      simp at h
    | ok r =>
      rw [hc] at h
      obtain ⟨rs, hm, hb, ht⟩ := ih (t + r.co2e) (b ++ [r]) t' b' h
      refine ⟨r :: rs, ?_, ?_, ?_⟩
      · simp [mapCombustion, hc, hm]
      · simp [hb]
      · rw [ht]
        simp only [List.map_cons, List.sum_cons]
        ring

theorem fugitiveLoop_ok (l : List FugitiveEmissionInput) :
    ∀ (t : ℚ) (b : List EmissionResult) (t' : ℚ) (b' : List EmissionResult),
      fugitiveLoop t b l = Except.ok (t', b') →
      ∃ rs, mapFugitive l = Except.ok rs ∧ b' = b ++ rs ∧
        t' = t + (rs.map EmissionResult.co2e).sum := by
  induction l with
  | nil =>
    intro t b t' b' h
    simp only [fugitiveLoop, Except.ok.injEq, Prod.mk.injEq] at h
    obtain ⟨rfl, rfl⟩ := h
    exact ⟨[], by simp [mapFugitive], by simp, by simp⟩
  | cons f rest ih =>
    intro t b t' b' h
    simp only [fugitiveLoop] at h
    cases hc : calculate_fugitive_emissions f with
    | error e =>
      rw [hc] at h
      simp at h
    | ok r =>
      rw [hc] at h
      obtain ⟨rs, hm, hb, ht⟩ := ih (t + r.co2e) (b ++ [r]) t' b' h
      refine ⟨r :: rs, ?_, ?_, ?_⟩
      · simp [mapFugitive, hc, hm]
      · simp [hb]
      · rw [ht]
        simp only [List.map_cons, List.sum_cons]
        ring

theorem purchasedGoodsLoop_spec (l : List PurchasedGoodsItem) :
    ∀ (t : ℚ) (d : List (String × ℚ)) (t' : ℚ) (d' : List (String × ℚ)),
      purchasedGoodsLoop t d l = (t', d') → t' - dSum d' = t - dSum d := by
  induction l with
  | nil =>
    intro t d t' d' h
    simp only [purchasedGoodsLoop, Prod.mk.injEq] at h
    obtain ⟨rfl, rfl⟩ := h
    ring
  | cons item rest ih =>
    intro t d t' d' h
    cases item with
    | water i =>
      simp only [purchasedGoodsLoop] at h
      rw [ih _ _ _ _ h, dSum_dAdd]
      ring
    | paper i =>
      simp only [purchasedGoodsLoop] at h
      rw [ih _ _ _ _ h, dSum_dAdd]
      ring

theorem wasteLoop_spec (l : List WasteItem) :
    ∀ (t : ℚ) (d : List (String × ℚ)) (t' : ℚ) (d' : List (String × ℚ)),
      wasteLoop t d l = (t', d') → t' - dSum d' = t - dSum d := by
  induction l with
  | nil =>
    intro t d t' d' h
    simp only [wasteLoop, Prod.mk.injEq] at h
    obtain ⟨rfl, rfl⟩ := h
    ring
  | cons item rest ih =>
    intro t d t' d' h
    cases item with
    | solid i =>
      simp only [wasteLoop] at h
      rw [ih _ _ _ _ h, dSum_dAdd]
      ring
    | wastewater i =>
      simp only [wasteLoop] at h
      rw [ih _ _ _ _ h, dSum_dAdd]
      ring

theorem businessTravelLoop_spec (l : List BusinessTravelItem) :
    ∀ (t : ℚ) (d : List (String × ℚ)) (t' : ℚ) (d' : List (String × ℚ)),
      businessTravelLoop t d l = Except.ok (t', d') → t' - dSum d' = t - dSum d := by
  induction l with
  | nil =>
    intro t d t' d' h
    simp only [businessTravelLoop, Except.ok.injEq, Prod.mk.injEq] at h
    obtain ⟨rfl, rfl⟩ := h
    ring
  | cons item rest ih =>
    intro t d t' d' h
    cases item with
    | air i =>
      simp only [businessTravelLoop] at h
      rw [ih _ _ _ _ h, dSum_dAdd]
      ring
    | rail i =>
      simp only [businessTravelLoop] at h
      rw [ih _ _ _ _ h, dSum_dAdd]
      ring
    | taxiBus i =>
      simp only [businessTravelLoop] at h
      cases hc : calculate_taxi_bus_travel_emissions i with
      | error e =>
        rw [hc] at h
        simp at h
      | ok em =>
        rw [hc] at h
        rw [ih _ _ _ _ h, dSum_dAdd]
        ring

/-- C2: a successful Scope 1 calculation returns a total equal to the sum of
the co2e values of its breakdown, which lists the combustion results and then
the fugitive results in input order; a successful Scope 3 calculation returns
a total equal to the sum of all per-subtype values across its three breakdown
groups. -/
theorem C2_totals_equal_breakdown_sums :
    (∀ (inp : Scope1CalculationInput) (out : Scope1Output),
      calculate_scope1_emissions inp = Except.ok out →
      out.total_co2e = (out.breakdown.map EmissionResult.co2e).sum ∧
      ∃ cs fs, mapCombustion inp.combustion_emissions = Except.ok cs ∧
        mapFugitive inp.fugitive_emissions = Except.ok fs ∧ out.breakdown = cs ++ fs) ∧
    (∀ (inp : Scope3CalculationInput) (out : Scope3Output),
      calculate_scope3_emissions inp = Except.ok out →
      out.total_co2e_emissions =
        dSum out.breakdown.purchased_goods_services + dSum out.breakdown.waste_generated +
          dSum out.breakdown.business_travel) := by
  constructor
  · intro inp out h
    simp only [calculate_scope1_emissions] at h
    cases h1 : combustionLoop 0 [] inp.combustion_emissions with
    | error e =>
      rw [h1] at h
      simp at h
    | ok p =>
      obtain ⟨t1, b1⟩ := p
      rw [h1] at h
      dsimp only at h
      cases h2 : fugitiveLoop t1 b1 inp.fugitive_emissions with
      | error e =>
        rw [h2] at h
        simp at h
      | ok q =>
        obtain ⟨t2, b2⟩ := q
        rw [h2] at h
        have hout : out = ⟨t2, b2⟩ := by
          injection h with h
          exact h.symm
        subst hout
        obtain ⟨cs, hcs, hb1, ht1⟩ := combustionLoop_ok _ _ _ _ _ h1
        obtain ⟨fs, hfs, hb2, ht2⟩ := fugitiveLoop_ok _ _ _ _ _ h2
        constructor
        · show t2 = (b2.map EmissionResult.co2e).sum
          rw [ht2, ht1, hb2, hb1]
          simp [List.map_append, List.sum_append]
        · exact ⟨cs, fs, hcs, hfs, by show b2 = cs ++ fs; rw [hb2, hb1]; simp⟩
  · intro inp out h
    simp only [calculate_scope3_emissions] at h
    rcases hp : purchasedGoodsLoop 0 [] inp.purchased_goods_services with ⟨t1, d1⟩
    rw [hp] at h
    dsimp only at h
    rcases hw : wasteLoop t1 [] inp.waste_generated with ⟨t2, d2⟩
    rw [hw] at h
    dsimp only at h
    cases hb : businessTravelLoop t2 [] inp.business_travel with
    | error e =>
      rw [hb] at h
      simp at h
    | ok p =>
      obtain ⟨t3, d3⟩ := p
      rw [hb] at h
      have hout : out = ⟨t3, ⟨d1, d2, d3⟩⟩ := by
        injection h with h
        exact h.symm
      subst hout
      have e1 := purchasedGoodsLoop_spec _ _ _ _ _ hp
      have e2 := wasteLoop_spec _ _ _ _ _ hw
      have e3 := businessTravelLoop_spec _ _ _ _ _ hb
      simp only [dSum, List.map_nil, List.sum_nil] at e1 e2 e3 ⊢
      linarith

/-- C2 witness: the one-record Scope 1 and Scope 3 examples, whose totals
reproduce their breakdown sums. -/
theorem C2_totals_equal_breakdown_sums_witness :
    (scope1ExampleOut.total_co2e = (scope1ExampleOut.breakdown.map EmissionResult.co2e).sum ∧
      ∃ cs fs, mapCombustion scope1Example.combustion_emissions = Except.ok cs ∧
        mapFugitive scope1Example.fugitive_emissions = Except.ok fs ∧
        scope1ExampleOut.breakdown = cs ++ fs) ∧
    scope3ExampleOut.total_co2e_emissions =
      dSum scope3ExampleOut.breakdown.purchased_goods_services +
        dSum scope3ExampleOut.breakdown.waste_generated +
        dSum scope3ExampleOut.breakdown.business_travel :=
  ⟨C2_totals_equal_breakdown_sums.1 scope1Example scope1ExampleOut
     (by norm_num [calculate_scope1_emissions, combustionLoop, fugitiveLoop, scope1Example,
       scope1ExampleOut, calculate_fugitive_emissions, resolveGwp, pyOr, GWP_R32]),
   C2_totals_equal_breakdown_sums.2 scope3Example scope3ExampleOut
     (by norm_num [calculate_scope3_emissions, purchasedGoodsLoop, wasteLoop,
       businessTravelLoop, scope3Example, scope3ExampleOut, calculate_water_supply_emissions,
       dAdd, dGet, dSet, EF_WATER_SUPPLY_KG_CO2E_PER_M3])⟩

theorem combustionLoop_first_error (pre : List CombustionInput) :
    ∀ (t : ℚ) (b : List EmissionResult) (c : CombustionInput) (post : List CombustionInput)
      (e : String),
      (∀ p ∈ pre, ∃ r, calculate_combustion_emissions p = Except.ok r) →
      calculate_combustion_emissions c = Except.error e →
      combustionLoop t b (pre ++ c :: post) = Except.error e := by
  induction pre with
  | nil =>
    intro t b c post e _ hc
    simp [combustionLoop, hc]
  | cons p rest ih =>
    intro t b c post e hpre hc
    obtain ⟨r, hr⟩ := hpre p (by simp)
    simp only [List.cons_append, combustionLoop, hr]
    exact ih _ _ _ _ _ (fun q hq => hpre q (by simp [hq])) hc

/-- C6 counterexample: coal measured in liters is not one of the four supported
branches the claim lists, yet with density and calorific overrides present the
calculation succeeds instead of failing. -/
theorem C6_coal_in_liters_succeeds :
    coalLitersOverrides.unit = Unit.LITERS ∧
    coalLitersOverrides.fuel_type = FuelType.COAL ∧
    calculate_combustion_emissions coalLitersOverrides = Except.ok
      { source := "Heating", fuel_type := some FuelType.COAL,
        co2e := calculate_co2e (0.001 * 94.6) (0.001 * 0.001) (0.001 * 0.0001),
        details := [("energy_gj", 0.001), ("mass_co2", 0.001 * 94.6),
          ("mass_ch4", 0.001 * 0.001), ("mass_n2o", 0.001 * 0.0001)] } := by
  refine ⟨rfl, rfl, ?_⟩
  norm_num [calculate_combustion_emissions, computeEnergyGJ, resolveLiquidDC,
    resolveEmissionFactors, coalLitersOverrides, pyOr, EF_CO2_COAL, EF_CH4_COAL, EF_N2O_COAL,
    calculate_co2e, GWP_CH4, GWP_N2O]

/-- C6 (amended): every combustion record with unit m3 and fuel other than
natural gas, unit t and fuel other than coal, unit km and source other than
Fleet, or unit kWh fails with the invalid-input error naming the offending
unit and fuel type (records in liters can instead succeed for any fuel type
once density and calorific value resolve); and a Scope 1 input whose
combustion list contains a failing record, all earlier records succeeding,
propagates that record's error and produces no partial result. -/
theorem C6_unsupported_combo_error_and_propagation :
    (∀ i : CombustionInput,
      ((i.unit = Unit.M3 ∧ i.fuel_type ≠ FuelType.NATURAL_GAS) ∨
        (i.unit = Unit.TONNES ∧ i.fuel_type ≠ FuelType.COAL) ∨
        (i.unit = Unit.KM ∧ i.source ≠ "Fleet") ∨
        i.unit = Unit.KWH) →
      calculate_combustion_emissions i = Except.error (unsupportedComboMsg i)) ∧
    (∀ (inp : Scope1CalculationInput) (pre post : List CombustionInput)
        (c : CombustionInput) (e : String),
      inp.combustion_emissions = pre ++ c :: post →
      (∀ p ∈ pre, ∃ r, calculate_combustion_emissions p = Except.ok r) →
      calculate_combustion_emissions c = Except.error e →
      calculate_scope1_emissions inp = Except.error e) := by
  constructor
  · intro i hi
    have he : computeEnergyGJ i = Except.error (unsupportedComboMsg i) := by
      rcases hi with ⟨hu, hf⟩ | ⟨hu, hf⟩ | ⟨hu, hs⟩ | hu
      · simp [computeEnergyGJ, hu, hf]
      · simp [computeEnergyGJ, hu, hf]
      · simp [computeEnergyGJ, hu, hs]
      · simp [computeEnergyGJ, hu]
    simp [calculate_combustion_emissions, he]
  · intro inp pre post c e hsplit hpre hc
    have hloop := combustionLoop_first_error pre 0 [] c post e hpre hc
    simp [calculate_scope1_emissions, hsplit, hloop]

/-- C6 witness: a diesel record measured in kWh fails with the error naming
the combination, and a Scope 1 input holding it propagates that error. -/
theorem C6_unsupported_combo_witness :
    calculate_combustion_emissions kwhDiesel = Except.error (unsupportedComboMsg kwhDiesel) ∧
    calculate_scope1_emissions { combustion_emissions := [kwhDiesel] } =
      Except.error (unsupportedComboMsg kwhDiesel) := by
  have h1 := C6_unsupported_combo_error_and_propagation.1 kwhDiesel (Or.inr (Or.inr (Or.inr rfl)))
  exact ⟨h1, C6_unsupported_combo_error_and_propagation.2 _ [] [] kwhDiesel _ rfl (by simp) h1⟩

end CarbonCalculator
